import Mathlib

/-!
Verification of `windows_availability.h` (namespace `__builtin_availability`).

The header is a single C++ file providing a compile-time parser from
human-readable Windows version strings (e.g. "Windows 10 21H2") to
`(major, minor, build)` triples of `DWORD`s, and a runtime comparison of a
parsed triple against the lazily-loaded live OS version.

Shallow embedding conventions:
* `std::string_view` cursors become `List Char`; `s.substr(n)` is `List.drop n`
  and `s.compare(0, n, w) == 0` (with `w` of length `n`) is `s.take n = w.data`.
* `DWORD` (32-bit unsigned) values become `Nat`; the only place the source can
  overflow is the multiply-accumulate in `extractVersionNumber`, which is
  modelled with `% 2 ^ 32`.
* The in-out reference parameters of `extractVersionNumber` become explicit
  results: it returns `(succeeded, advanced cursor, value)`, where the value
  component equals the input value whenever the source would have left the
  reference unassigned.
* The three process-wide globals `majorVersion/minorVersion/buildVersion`
  become a `SysState` record threaded explicitly; the external collaborator
  `RtlGetNtVersionNumbers` becomes an explicit `os` triple argument.
-/

abbrev VersionTuple : Type := Nat × Nat × Nat

/-- `makeVersion(M, m, b)` (header line 50): builds the tuple. -/
def makeVersion (M m b : Nat) : VersionTuple := (M, m, b)

/-- `makeVersion()` with its default arguments: `M = (DWORD)(-1) = 2^32 - 1`,
`m = 0`, `b = 0` — the "invalid" sentinel tuple. -/
def invalidVersion : VersionTuple := makeVersion (2 ^ 32 - 1) 0 0

/-- `checkPlatform` (lines 58-62): the string starts with `"Windows "` or
`"windows "` (a `compare(0, 8, ·) == 0` check on each). -/
def checkPlatform (s : List Char) : Bool :=
  decide (s.take 8 = "Windows ".data) || decide (s.take 8 = "windows ".data)

/-- The `while` loop of `extractVersionNumber` (lines 85-93): accumulate
decimal digits into `v` with 32-bit wrap-around, stopping (without consuming)
at the first non-digit. Returns the final value and the remaining cursor. -/
def extractLoop (s : List Char) (v : Nat) : Nat × List Char :=
  match s with
  | [] => (v, [])
  | c :: rest =>
    if c < '0' ∨ '9' < c then (v, c :: rest)
    else extractLoop rest ((v * 10 + (c.toNat - '0'.toNat)) % 2 ^ 32)

/-- `extractVersionNumber` (lines 76-96). Result components: did a number
parse, the advanced cursor, and the value of the in-out parameter `v` (left at
its input value on failure, since the source never assigns it then; note the
source consumes one character before discovering a non-digit first char). -/
def extractVersionNumber (s : List Char) (v : Nat) : Bool × List Char × Nat :=
  match s with
  | [] => (false, [], v)
  | c :: rest =>
    if c < '0' ∨ '9' < c then (false, rest, v)
    else
      let p := extractLoop rest (c.toNat - '0'.toNat)
      (true, p.2, p.1)

/-- Lines 196-214: the table mapping a Windows 10 four-digit update name
(carried in the `minor` slot) to its build number; an unknown value is used
directly as the build number. Only reached when `major == 10 && minor > 0`. -/
def minorToBuild (reqMajor minor : Nat) : Nat :=
  if reqMajor = 10 ∧ minor = 2004 then 19041
  else if reqMajor = 10 ∧ minor = 1909 then 18363
  else if reqMajor = 10 ∧ minor = 1903 then 18362
  else if reqMajor = 10 ∧ minor = 1809 then 17763
  else if reqMajor = 10 ∧ minor = 1803 then 17134
  else if reqMajor = 10 ∧ minor = 1709 then 16299
  else if reqMajor = 10 ∧ minor = 1703 then 15063
  else if reqMajor = 10 ∧ minor = 1607 then 14393
  else if reqMajor = 10 ∧ minor = 1511 then 10586
  else if reqMajor = 10 ∧ minor = 1507 then 10240
  else minor

/-- Line 182: `reqMajor == 8 && minor == 1` remaps minor to 3 (Windows 8.1). -/
def remapMinor (reqMajor minor : Nat) : Nat :=
  if reqMajor = 8 ∧ minor = 1 then 3 else minor

/-- Lines 216-224: the final separator check and build-field extraction. Both
the failed and the successful extraction return `makeVersion(major, minor,
build)`; on failure `build` is simply left unchanged, which is exactly the
value component our `extractVersionNumber` returns then. -/
def buildStep (major minor build : Nat) (s : List Char) : VersionTuple :=
  match s with
  | [] => makeVersion major minor build
  | c :: rest =>
    if ¬(c = '.' ∨ c = '_' ∨ c = ' ') then makeVersion major minor build
    else makeVersion major minor (extractVersionNumber rest build).2.2

/-- Lines 181-224: everything after the update/minor field has been resolved:
the Windows 8.1 minor remap, the Windows 10/11 reinterpretation of a non-zero
minor as a build number (resetting minor to 0), then `buildStep`. -/
def finishParse (reqMajor major minor build : Nat) (s : List Char) : VersionTuple :=
  if major = 10 ∧ 0 < remapMinor reqMajor minor then
    buildStep major 0 (minorToBuild reqMajor (remapMinor reqMajor minor)) s
  else
    buildStep major (remapMinor reqMajor minor) build s

/-- Lines 162-179: after the first separator has been consumed. Each named
feature-update code is a case-sensitive `compare(0, 4, ·) == 0` (i.e. 4-char
prefix) check gated on the requested major; a match fixes the build number and
leaves the cursor on the code itself (the source never advances `s` here).
Otherwise a numeric minor is extracted; extraction failure returns the tuple
assembled so far. -/
def afterSep (reqMajor major minor build : Nat) (s : List Char) : VersionTuple :=
  if reqMajor = 11 ∧ s.take 4 = "22H2".data then finishParse reqMajor major minor 22621 s
  else if reqMajor = 11 ∧ s.take 4 = "21H2".data then finishParse reqMajor major minor 22000 s
  else if reqMajor = 10 ∧ s.take 4 = "22H2".data then finishParse reqMajor major minor 19045 s
  else if reqMajor = 10 ∧ s.take 4 = "21H2".data then finishParse reqMajor major minor 19044 s
  else if reqMajor = 10 ∧ s.take 4 = "21H1".data then finishParse reqMajor major minor 19043 s
  else if reqMajor = 10 ∧ s.take 4 = "20H2".data then finishParse reqMajor major minor 19042 s
  else if (extractVersionNumber s minor).1 = true then
    finishParse reqMajor major (extractVersionNumber s minor).2.2 build
      (extractVersionNumber s minor).2.1
  else makeVersion major minor build

/-- Lines 159-161 (and the identical guard shape at 216): if the input is
exhausted or the next character is not `.`/`_`/` `, return the tuple assembled
so far; otherwise consume the separator and continue. -/
def checkSepThen (reqMajor major minor build : Nat) (s : List Char) : VersionTuple :=
  match s with
  | [] => makeVersion major minor build
  | c :: rest =>
    if ¬(c = '.' ∨ c = '_' ∨ c = ' ') then makeVersion major minor build
    else afterSep reqMajor major minor build rest

/-- Lines 139-161: `major = reqMajor`, then the three sequential special-case
blocks for requested majors 7, 8 and 11, then the first separator check.
`minor0` is the minor value already set by the alias branch (1 for XP). -/
def afterMajor (reqMajor minor0 : Nat) (s : List Char) : VersionTuple :=
  let major := reqMajor
  let minor := minor0
  let build := 0
  -- Windows 7
  let major := if reqMajor = 7 then 6 else major
  let minor := if reqMajor = 7 then 1 else minor
  -- Windows 8
  let major := if reqMajor = 8 then 6 else major
  let minor := if reqMajor = 8 then 2 else minor
  -- Windows 11
  let major := if reqMajor = 11 then 10 else major
  let build := if reqMajor = 11 then 22000 else build
  checkSepThen reqMajor major minor build s

/-- `parseWindowsVersion` (lines 115-225): strip the 8-character platform
prefix, recognise the `Vista`/`vista` and `XP`/`xp` aliases (each a
`compare(0, n, ·) == 0` prefix check, with the cursor left unadvanced),
otherwise extract a numeric requested major (returning the invalid tuple on
failure), and continue with `afterMajor`. -/
def parseWindowsVersion (input : List Char) : VersionTuple :=
  let s := input.drop 8
  if s.take 5 = "Vista".data ∨ s.take 5 = "vista".data then
    afterMajor 6 0 s
  else if s.take 2 = "XP".data ∨ s.take 2 = "xp".data then
    afterMajor 5 1 s
  else if (extractVersionNumber s 0).1 = true then
    afterMajor (extractVersionNumber s 0).2.2 0 (extractVersionNumber s 0).2.1
  else invalidVersion

/-- Lexicographic order on triples: the meaning of `operator<=` on
`std::tuple<DWORD, DWORD, DWORD>` (line 257). -/
def tupleLE (a b : VersionTuple) : Prop :=
  a.1 < b.1 ∨ (a.1 = b.1 ∧ (a.2.1 < b.2.1 ∨ (a.2.1 = b.2.1 ∧ a.2.2 ≤ b.2.2)))

/-- Strict lexicographic order on triples (`operator<` on `std::tuple`). -/
def tupleLT (a b : VersionTuple) : Prop :=
  a.1 < b.1 ∨ (a.1 = b.1 ∧ (a.2.1 < b.2.1 ∨ (a.2.1 = b.2.1 ∧ a.2.2 < b.2.2)))

instance (a b : VersionTuple) : Decidable (tupleLE a b) := by
  unfold tupleLE; infer_instance

instance (a b : VersionTuple) : Decidable (tupleLT a b) := by
  unfold tupleLT; infer_instance

/-- The process-wide globals `majorVersion`, `minorVersion`, `buildVersion`
(lines 229-231), all initially 0. -/
structure SysState where
  majorVersion : Nat
  minorVersion : Nat
  buildVersion : Nat
deriving DecidableEq

/-- `_loadSystemVersion` (lines 236-246): store the three numbers reported by
the external `RtlGetNtVersionNumbers` collaborator (modelled as the `os`
argument), masking the top 4 bits off the build number. -/
def _loadSystemVersion (os : Nat × Nat × Nat) : SysState :=
  SysState.mk os.1 os.2.1 (os.2.2 &&& 0x0FFFFFFF)

/-- `_isVersionAtLeast` (lines 253-258): lazily load the live version when
`majorVersion` is still 0, then compare the requested tuple against the live
tuple with `<=`. Returns the boolean together with the (possibly updated)
global state. -/
def _isVersionAtLeast (os : Nat × Nat × Nat) (st : SysState) (version : VersionTuple) :
    Bool × SysState :=
  let st' := if st.majorVersion = 0 then _loadSystemVersion os else st
  (decide (tupleLE version (st'.majorVersion, st'.minorVersion, st'.buildVersion)), st')

/-- The `___windows_available_check(x)` macro (lines 261-266): platform check
first; a non-matching platform short-circuits to `false` without touching the
version state. -/
def ___windows_available_check (os : Nat × Nat × Nat) (st : SysState) (x : List Char) :
    Bool × SysState :=
  if checkPlatform x = true then _isVersionAtLeast os st (parseWindowsVersion x)
  else (false, st)

/-! ### Specification-side helper predicates (decidable, for use in claim
statements about digit runs) -/

/-- One step of big-endian decimal accumulation, without any wrap-around. -/
def digitsStep (v : Nat) (c : Char) : Nat := v * 10 + (c.toNat - '0'.toNat)

/-- The exact (unbounded) decimal value of a digit run. -/
def digitsVal (l : List Char) : Nat := l.foldl digitsStep 0

/-- Every character of the list is a decimal digit (the complement of the
source's `c < '0' || c > '9'` test). -/
def digitsOnly : List Char → Bool
  | [] => true
  | c :: l => !(decide (c < '0' ∨ '9' < c)) && digitsOnly l

/-- The list is empty or starts with a non-digit: a maximal digit run may end
here. -/
def stopsRun : List Char → Bool
  | [] => true
  | c :: _ => decide (c < '0' ∨ '9' < c)

/-- The list is empty or starts with a character that is not one of the three
accepted separators. -/
def notSepHead : List Char → Bool
  | [] => true
  | c :: _ => decide (¬(c = '.' ∨ c = '_' ∨ c = ' '))

/-! ### Helper lemmas -/

lemma foldl_digitsStep_mod_congr (ds : List Char) :
    ∀ x y : Nat, x % 2 ^ 32 = y % 2 ^ 32 →
      List.foldl digitsStep x ds % 2 ^ 32 = List.foldl digitsStep y ds % 2 ^ 32 := by
  induction ds with
  | nil => intro x y h; simpa using h
  | cons c ds ih =>
    intro x y h
    simp only [List.foldl_cons]
    exact ih _ _ (Nat.ModEq.add_right _ (Nat.ModEq.mul_right 10 h))

lemma extractLoop_spec (ds : List Char) :
    ∀ (r : List Char) (a : Nat), digitsOnly ds = true → stopsRun r = true → a < 2 ^ 32 →
      extractLoop (ds ++ r) a = (List.foldl digitsStep a ds % 2 ^ 32, r) := by
  induction ds with
  | nil =>
    intro r a _ hr ha
    match r with
    | [] => simp [extractLoop]; omega
    | c :: r' =>
      simp only [stopsRun, decide_eq_true_iff] at hr
      simp [extractLoop, if_pos hr]; omega
  | cons c ds ih =>
    intro r a hds hr ha
    simp only [digitsOnly, Bool.and_eq_true, Bool.not_eq_true', decide_eq_false_iff_not] at hds
    have step : extractLoop ((c :: ds) ++ r) a
        = extractLoop (ds ++ r) ((a * 10 + (c.toNat - '0'.toNat)) % 2 ^ 32) := by
      simp [extractLoop, if_neg hds.1]
    rw [step, ih r _ hds.2 hr (Nat.mod_lt _ (by norm_num))]
    refine Prod.ext ?_ rfl
    show List.foldl digitsStep ((a * 10 + (c.toNat - '0'.toNat)) % 2 ^ 32) ds % 2 ^ 32
      = List.foldl digitsStep a (c :: ds) % 2 ^ 32
    rw [List.foldl_cons]
    exact foldl_digitsStep_mod_congr ds _ _ (by simp only [digitsStep]; omega)

lemma char_toNat_lt (c : Char) : c.toNat < 2 ^ 32 := by
  have h := c.val.val.isLt
  simp only [Char.toNat, UInt32.toNat, UInt32.size] at *
  omega

/-- The behaviour of `extractVersionNumber` on a non-empty maximal digit run
followed by a non-digit boundary. -/
lemma extract_spec (ds r : List Char) (v : Nat) (hne : ds ≠ [])
    (hds : digitsOnly ds = true) (hr : stopsRun r = true) :
    extractVersionNumber (ds ++ r) v = (true, r, digitsVal ds % 2 ^ 32) := by
  match ds with
  | [] => exact absurd rfl hne
  | c :: ds' =>
    simp only [digitsOnly, Bool.and_eq_true, Bool.not_eq_true', decide_eq_false_iff_not] at hds
    have hd : c.toNat - '0'.toNat < 2 ^ 32 :=
      Nat.lt_of_le_of_lt (Nat.sub_le _ _) (char_toNat_lt c)
    have : extractVersionNumber ((c :: ds') ++ r) v
        = (true, (extractLoop (ds' ++ r) (c.toNat - '0'.toNat)).2,
                 (extractLoop (ds' ++ r) (c.toNat - '0'.toNat)).1) := by
      simp [extractVersionNumber, if_neg hds.1]
    rw [this, extractLoop_spec ds' r _ hds.2 hr hd]
    have hv : List.foldl digitsStep (c.toNat - '0'.toNat) ds' = digitsVal (c :: ds') := by
      simp [digitsVal, digitsStep]
    rw [hv]

lemma tupleLE_refl (a : VersionTuple) : tupleLE a a :=
  Or.inr ⟨rfl, Or.inr ⟨rfl, Nat.le_refl _⟩⟩

lemma not_tupleLE_of_tupleLT {a b : VersionTuple} (h : tupleLT a b) : ¬ tupleLE b a := by
  obtain ⟨a1, a2, a3⟩ := a
  obtain ⟨b1, b2, b3⟩ := b
  unfold tupleLT at h
  unfold tupleLE
  simp only at *
  omega

lemma tupleLE_invalid_iff (M m b : Nat) :
    tupleLE invalidVersion (M, m, b) ↔ 2 ^ 32 - 1 ≤ M := by
  unfold tupleLE invalidVersion makeVersion
  simp only
  omega

/-! ### Claim theorems -/

/-- C1: the parser maps the spec's reference examples exactly:
"Windows 7" ↦ (6,1,0), "Windows 8.1" ↦ (6,3,0), "Windows 11 21H2" ↦
(10,0,22000), "Windows 11 22H2" ↦ (10,0,22621), "Windows 10 2004" ↦
(10,0,19041), "Windows XP" ↦ (5,1,0), "Windows Vista" ↦ (6,0,0). -/
theorem parse_reference_examples :
    parseWindowsVersion "Windows 7".data = (6, 1, 0) ∧
    parseWindowsVersion "Windows 8.1".data = (6, 3, 0) ∧
    parseWindowsVersion "Windows 11 21H2".data = (10, 0, 22000) ∧
    parseWindowsVersion "Windows 11 22H2".data = (10, 0, 22621) ∧
    parseWindowsVersion "Windows 10 2004".data = (10, 0, 19041) ∧
    parseWindowsVersion "Windows XP".data = (5, 1, 0) ∧
    parseWindowsVersion "Windows Vista".data = (6, 0, 0) := by
  decide

/-- C2: parsing "Windows " (platform prefix, no digits, no alias) yields the
sentinel triple `(2^32 - 1, 0, 0)`, and `_isVersionAtLeast` applied to the
sentinel returns `false` whenever the live (post-load) triple has a major
component strictly below the maximum representable `DWORD`. -/
theorem sentinel_never_satisfied :
    parseWindowsVersion "Windows ".data = invalidVersion ∧
    ∀ (os : Nat × Nat × Nat) (st : SysState),
      (_isVersionAtLeast os st invalidVersion).2.majorVersion < 2 ^ 32 - 1 →
      (_isVersionAtLeast os st invalidVersion).1 = false := by
  refine ⟨by decide, ?_⟩
  intro os st h
  show decide (tupleLE invalidVersion
      ((_isVersionAtLeast os st invalidVersion).2.majorVersion,
       (_isVersionAtLeast os st invalidVersion).2.minorVersion,
       (_isVersionAtLeast os st invalidVersion).2.buildVersion)) = false
  apply decide_eq_false
  intro hle
  exact absurd ((tupleLE_invalid_iff _ _ _).mp hle) (by omega)

/-- Witness for C2 at a concrete live state. -/
theorem sentinel_never_satisfied_w :
    (_isVersionAtLeast (10, 0, 19045) (SysState.mk 0 0 0) invalidVersion).1 = false :=
  sentinel_never_satisfied.2 (10, 0, 19045) (SysState.mk 0 0 0) (by decide)

/-- C3: on an invocation from the unpopulated state (`majorVersion = 0`)
`_isVersionAtLeast` populates the state from the external OS query, storing
the reported build modulo `2^28` (the top-4-bit mask); from a populated state
it leaves the state unchanged; and in all cases the returned boolean is `true`
iff the requested triple is `≤` the stored live triple in lexicographic
order. -/
theorem isVersionAtLeast_lazy_load_spec :
    ∀ (os : Nat × Nat × Nat) (st : SysState) (version : VersionTuple),
      ((_isVersionAtLeast os st version).2 =
        if st.majorVersion = 0 then SysState.mk os.1 os.2.1 (os.2.2 % 2 ^ 28) else st) ∧
      ((_isVersionAtLeast os st version).1 = true ↔
        tupleLE version ((_isVersionAtLeast os st version).2.majorVersion,
                         (_isVersionAtLeast os st version).2.minorVersion,
                         (_isVersionAtLeast os st version).2.buildVersion)) := by
  intro os st version
  constructor
  · show (if st.majorVersion = 0 then _loadSystemVersion os else st) = _
    unfold _loadSystemVersion
    rw [Nat.and_pow_two_sub_one_eq_mod os.2.2 28]
  · exact decide_eq_true_iff

/-- C4: if `A` is lexicographically strictly below `B` and the live state is
populated with `A` (a populated state has a non-zero major, since 0 marks the
unloaded state and is reported by no real OS), then `_isVersionAtLeast B` is
`false` and `_isVersionAtLeast A` is `true`. -/
theorem isVersionAtLeast_monotone :
    ∀ (A B : VersionTuple) (os : Nat × Nat × Nat),
      tupleLT A B → A.1 ≠ 0 →
      (_isVersionAtLeast os (SysState.mk A.1 A.2.1 A.2.2) B).1 = false ∧
      (_isVersionAtLeast os (SysState.mk A.1 A.2.1 A.2.2) A).1 = true := by
  intro A B os hlt hA1
  unfold _isVersionAtLeast
  simp only [if_neg hA1]
  constructor
  · exact decide_eq_false (not_tupleLE_of_tupleLT hlt)
  · exact decide_eq_true (tupleLE_refl A)

/-- Witness for C4 at concrete triples. -/
theorem isVersionAtLeast_monotone_w :
    (_isVersionAtLeast (0, 0, 0) (SysState.mk 10 0 19044) (10, 0, 19045)).1 = false ∧
    (_isVersionAtLeast (0, 0, 0) (SysState.mk 10 0 19044) (10, 0, 19044)).1 = true :=
  isVersionAtLeast_monotone (10, 0, 19044) (10, 0, 19045) (0, 0, 0) (by decide) (by decide)

/-- C5: `checkPlatform` accepts exactly the strings beginning with the
8-character prefix "Windows " or "windows ", and any string rejected by
`checkPlatform` makes the overall availability check `false` regardless of the
live system state. -/
theorem checkPlatform_spec :
    (∀ s : List Char, checkPlatform s = true ↔
      ("Windows ".data <+: s ∨ "windows ".data <+: s)) ∧
    (∀ (os : Nat × Nat × Nat) (st : SysState) (s : List Char),
      checkPlatform s = false → (___windows_available_check os st s).1 = false) := by
  constructor
  · intro s
    unfold checkPlatform
    rw [Bool.or_eq_true, decide_eq_true_iff, decide_eq_true_iff]
    have h1 : ("Windows ".data : List Char).length = 8 := by decide
    have h2 : ("windows ".data : List Char).length = 8 := by decide
    rw [List.prefix_iff_eq_take, List.prefix_iff_eq_take, h1, h2]
    constructor
    · rintro (h | h) <;> [exact Or.inl h.symm; exact Or.inr h.symm]
    · rintro (h | h) <;> [exact Or.inl h.symm; exact Or.inr h.symm]
  · intro os st s h
    unfold ___windows_available_check
    rw [h]
    simp

/-- Witness for C5 at a concrete non-Windows string. -/
theorem checkPlatform_spec_w :
    (___windows_available_check (0, 0, 0) (SysState.mk 0 0 0) "macOS 12".data).1 = false :=
  checkPlatform_spec.2 (0, 0, 0) (SysState.mk 0 0 0) "macOS 12".data (by decide)

/-- C6 counterexample: the capitalization "Xp" is not recognized as the XP
alias — the parse falls through to numeric extraction, fails, and yields the
sentinel rather than a requested-major-5 triple. -/
theorem alias_case_counterexample :
    parseWindowsVersion "Windows Xp".data = invalidVersion ∧
    parseWindowsVersion "Windows Xp".data ≠ (5, 1, 0) ∧
    parseWindowsVersion "Windows VISTA".data = invalidVersion ∧
    parseWindowsVersion "Windows VISTA".data ≠ (6, 0, 0) := by
  decide

/-- C6 amended: after stripping the platform prefix, the parser recognizes
the historical alias names in exactly two capitalizations each — "Vista" and
"vista" yield requested major 6, "XP" and "xp" yield requested major 5 with
minor 1 — before any numeric extraction (the alias branch never consumes
digits: any trailing text after the alias is ignored), while other
capitalizations such as "VISTA", "Xp" or "xP" fall through to numeric
extraction and fail to the sentinel. -/
theorem alias_recognition_amended :
    (∀ t : List Char,
      parseWindowsVersion ("Windows Vista".data ++ t) = (6, 0, 0) ∧
      parseWindowsVersion ("Windows vista".data ++ t) = (6, 0, 0) ∧
      parseWindowsVersion ("Windows XP".data ++ t) = (5, 1, 0) ∧
      parseWindowsVersion ("Windows xp".data ++ t) = (5, 1, 0)) ∧
    parseWindowsVersion "Windows VISTA".data = invalidVersion ∧
    parseWindowsVersion "Windows vIsta".data = invalidVersion ∧
    parseWindowsVersion "Windows Xp".data = invalidVersion ∧
    parseWindowsVersion "Windows xP".data = invalidVersion := by
  exact ⟨fun t => ⟨rfl, rfl, rfl, rfl⟩, by decide, by decide, by decide, by decide⟩

/-- C7 counterexample: the named-update comparison is a 4-character prefix
check, not an exact match of the whole update field. The update field of
"Windows 10 20H2x" is "20H2x", which is not exactly one of the accepted
codes, yet the parse takes the named-update path (fixed build 19042) instead
of the numeric-minor path (which would give build 20). -/
theorem named_update_prefix_counterexample :
    parseWindowsVersion "Windows 10 20H2x".data = (10, 0, 19042) ∧
    ¬("20H2x".data = "22H2".data ∨ "20H2x".data = "21H2".data ∨
      "20H2x".data = "21H1".data ∨ "20H2x".data = "20H2".data) ∧
    parseWindowsVersion "Windows 10 20H2x".data ≠ (10, 0, 20) := by
  decide

/-- C7 amended: after the requested major and one accepted separator, the
parser matches named feature-update codes case-sensitively as 4-character
prefixes of the remaining input, with the accepted set depending on the
requested major (11: "22H2", "21H2"; 10: "22H2", "21H2", "21H1", "20H2");
each match sets a fixed build number and bypasses numeric minor extraction
regardless of what follows the four characters. Strings whose next four
characters are not one of the codes for that major take the numeric path
instead (shown for a lowercase code and for 10-only codes under major 11). -/
theorem named_update_prefix_amended :
    (∀ (c : Char) (t : List Char), (c = '.' ∨ c = '_' ∨ c = ' ') →
      parseWindowsVersion ("Windows 11".data ++ c :: ("22H2".data ++ t)) = (10, 0, 22621) ∧
      parseWindowsVersion ("Windows 11".data ++ c :: ("21H2".data ++ t)) = (10, 0, 22000) ∧
      parseWindowsVersion ("Windows 10".data ++ c :: ("22H2".data ++ t)) = (10, 0, 19045) ∧
      parseWindowsVersion ("Windows 10".data ++ c :: ("21H2".data ++ t)) = (10, 0, 19044) ∧
      parseWindowsVersion ("Windows 10".data ++ c :: ("21H1".data ++ t)) = (10, 0, 19043) ∧
      parseWindowsVersion ("Windows 10".data ++ c :: ("20H2".data ++ t)) = (10, 0, 19042)) ∧
    parseWindowsVersion "Windows 10 20h2".data = (10, 0, 20) ∧
    parseWindowsVersion "Windows 11 20H2".data = (10, 0, 20) ∧
    parseWindowsVersion "Windows 11 21H1".data = (10, 0, 21) := by
  refine ⟨fun c t h => ?_, by decide, by decide, by decide⟩
  rcases h with rfl | rfl | rfl <;> exact ⟨rfl, rfl, rfl, rfl, rfl, rfl⟩

/-- Witness for the C7 amended theorem at a concrete separator and tail. -/
theorem named_update_prefix_amended_w :
    parseWindowsVersion ("Windows 11".data ++ ' ' :: ("22H2".data ++ [])) = (10, 0, 22621) :=
  (named_update_prefix_amended.1 ' ' [] (by decide)).1

/-- C8 counterexample: extension by a separator-delimited component is not
monotone. "Windows 11.1" extends "Windows 11", both parse successfully
(neither is the sentinel), yet the shorter string parses to (10, 0, 22000),
which is not lexicographically ≤ the longer string's (10, 0, 1). -/
theorem truncation_counterexample :
    parseWindowsVersion "Windows 11".data = (10, 0, 22000) ∧
    parseWindowsVersion "Windows 11.1".data = (10, 0, 1) ∧
    parseWindowsVersion "Windows 11.1".data ≠ invalidVersion ∧
    ¬ tupleLE (parseWindowsVersion "Windows 11".data)
              (parseWindowsVersion "Windows 11.1".data) := by
  decide

/-- C8 amended: truncated-parse monotonicity fails in general (the Windows 11
build floor and the Windows 10 minor-to-build reinterpretation make some
extensions parse strictly smaller), but the instance the spec cites holds,
and in a slightly stronger form: `parse("Windows 10")` is lexicographically ≤
`parse("Windows 10.0." ++ t)` for every tail `t`, in particular for
"Windows 10.0.19044". -/
theorem truncation_weaker_amended :
    (∀ t : List Char,
      tupleLE (parseWindowsVersion "Windows 10".data)
              (parseWindowsVersion ("Windows 10.0.".data ++ t))) ∧
    tupleLE (parseWindowsVersion "Windows 10".data)
            (parseWindowsVersion "Windows 10.0.19044".data) := by
  constructor
  · intro t
    show tupleLE (10, 0, 0) (10, 0, (extractVersionNumber t 0).2.2)
    exact Or.inr ⟨rfl, Or.inr ⟨rfl, Nat.zero_le _⟩⟩
  · decide

/-- C9: `extractVersionNumber` on a cursor starting with a decimal digit
returns success, leaves the cursor exactly after the maximal leading digit
run, and yields the decimal value of that run reduced modulo `2^32` (the
32-bit wrap of the `v = v*10 + digit` accumulation); on an empty cursor or a
non-digit first character it returns failure with the value untouched. -/
theorem extractVersionNumber_spec :
    (∀ (ds r : List Char) (v : Nat), ds ≠ [] → digitsOnly ds = true → stopsRun r = true →
      extractVersionNumber (ds ++ r) v = (true, r, digitsVal ds % 2 ^ 32)) ∧
    (∀ v : Nat, extractVersionNumber [] v = (false, [], v)) ∧
    (∀ (c : Char) (rest : List Char) (v : Nat), (c < '0' ∨ '9' < c) →
      extractVersionNumber (c :: rest) v = (false, rest, v)) := by
  refine ⟨fun ds r v h1 h2 h3 => extract_spec ds r v h1 h2 h3, fun v => rfl, ?_⟩
  intro c rest v h
  show (if c < '0' ∨ '9' < c then ((false, rest, v) : Bool × List Char × Nat)
        else (true, (extractLoop rest (c.toNat - '0'.toNat)).2,
                    (extractLoop rest (c.toNat - '0'.toNat)).1)) = (false, rest, v)
  rw [if_pos h]

/-- Witness for C9 at a concrete digit run and boundary. -/
theorem extractVersionNumber_spec_w :
    extractVersionNumber (['4', '2'] ++ ['x']) 7 = (true, ['x'], 42) :=
  (extractVersionNumber_spec.1 ['4', '2'] ['x'] 7 (by decide) (by decide) (by decide)).trans
    (by decide)

/-- C10 counterexample: "Windows 11 22H2" has the claimed shape — separator
' ', maximal digit run "22" of value 22 > 0, followed by 'H' which is not a
separator — but parses to (10, 0, 22621) via the named-update prefix match,
not to (10, 0, 22). -/
theorem win11_numeric_counterexample :
    parseWindowsVersion "Windows 11 22H2".data = (10, 0, 22621) ∧
    parseWindowsVersion "Windows 11 22H2".data ≠ (10, 0, 22) := by
  decide

/-- C10 amended: for "Windows 11" followed by an accepted separator and a
maximal decimal digit run of (32-bit) value n > 0, where the character after
the run (if any) is neither a separator nor a digit, and where the text after
the separator does not begin with the 4-character named codes "22H2" or
"21H2" (which would take the named-update path instead), the parse is
(10, 0, n): the numeric qualifier overwrites the 22000 build floor; in
particular parse("Windows 11.1") = (10, 0, 1) and parse("Windows 11 21H1") =
(10, 0, 21), both strictly below parse("Windows 11") = (10, 0, 22000). -/
theorem win11_numeric_overwrite_amended :
    (∀ (c : Char) (ds rest : List Char),
      (c = '.' ∨ c = '_' ∨ c = ' ') →
      ds ≠ [] → digitsOnly ds = true →
      stopsRun rest = true → notSepHead rest = true →
      0 < digitsVal ds % 2 ^ 32 →
      ¬((ds ++ rest).take 4 = "22H2".data) →
      ¬((ds ++ rest).take 4 = "21H2".data) →
      parseWindowsVersion ("Windows 11".data ++ c :: (ds ++ rest)) =
        (10, 0, digitsVal ds % 2 ^ 32)) ∧
    parseWindowsVersion "Windows 11.1".data = (10, 0, 1) ∧
    parseWindowsVersion "Windows 11 21H1".data = (10, 0, 21) ∧
    parseWindowsVersion "Windows 11".data = (10, 0, 22000) ∧
    tupleLT (10, 0, 1) (10, 0, 22000) ∧ tupleLT (10, 0, 21) (10, 0, 22000) := by
  refine ⟨?_, by decide, by decide, by decide, by decide, by decide⟩
  intro c ds rest hsep hne hds hstop hnsep hpos h22 h21
  rcases hsep with rfl | rfl | rfl <;>
  · show afterSep 11 10 0 22000 (ds ++ rest) = (10, 0, digitsVal ds % 2 ^ 32)
    unfold afterSep
    rw [if_neg (fun h => h22 h.2), if_neg (fun h => h21 h.2),
        if_neg (fun h => by omega : ¬(11 = 10 ∧ (ds ++ rest).take 4 = "22H2".data)),
        if_neg (fun h => by omega : ¬(11 = 10 ∧ (ds ++ rest).take 4 = "21H2".data)),
        if_neg (fun h => by omega : ¬(11 = 10 ∧ (ds ++ rest).take 4 = "21H1".data)),
        if_neg (fun h => by omega : ¬(11 = 10 ∧ (ds ++ rest).take 4 = "20H2".data)),
        extract_spec ds rest 0 hne hds hstop]
    show finishParse 11 10 (digitsVal ds % 2 ^ 32) 22000 rest = (10, 0, digitsVal ds % 2 ^ 32)
    unfold finishParse
    have hrm : remapMinor 11 (digitsVal ds % 2 ^ 32) = digitsVal ds % 2 ^ 32 :=
      if_neg (fun h => by omega)
    rw [hrm, if_pos ⟨rfl, hpos⟩]
    show buildStep 10 0 (digitsVal ds % 2 ^ 32) rest = (10, 0, digitsVal ds % 2 ^ 32)
    match rest with
    | [] => rfl
    | d :: r =>
      simp only [notSepHead, decide_eq_true_iff] at hnsep
      show (if ¬(d = '.' ∨ d = '_' ∨ d = ' ') then makeVersion 10 0 (digitsVal ds % 2 ^ 32)
            else makeVersion 10 0 (extractVersionNumber r (digitsVal ds % 2 ^ 32)).2.2) =
          (10, 0, digitsVal ds % 2 ^ 32)
      rw [if_pos hnsep]
      rfl

/-- Witness for the C10 amended theorem: "Windows 11 21H1" with digit run
"21" and tail "H1". -/
theorem win11_numeric_overwrite_amended_w :
    parseWindowsVersion ("Windows 11".data ++ ' ' :: (['2', '1'] ++ ['H', '1'])) =
      (10, 0, digitsVal ['2', '1'] % 2 ^ 32) :=
  win11_numeric_overwrite_amended.1 ' ' ['2', '1'] ['H', '1'] (by decide) (by decide)
    (by decide) (by decide) (by decide) (by decide) (by decide) (by decide)
